import Mathlib

/-!
Verification of the `ai_de_agent` repository (a thin HTTP/CLI façade over a
PostgreSQL database) against its natural-language specification.

The development shallowly embeds the load-bearing logic of the two Python
source files:

  * `de_assistant/db.py` — configuration loading, the connection scope,
    the identifier-safe preview-query builder (`fetch_head`) and the
    row-limit wrapper (`run_query`);
  * `app/app.py`   — the HTTP handlers `db_test`, `db_discover`, `chat`
    and the TCP probe `_is_port_open`.

External collaborators (the PostgreSQL engine, socket layer, LLM client)
are modelled as explicit function parameters, so every handler becomes a
pure function of its inputs and of the behaviour of those collaborators.
Python exceptions are modelled with `Except String`; Python `finally`
semantics (an exception raised in `finally` replaces the in-flight one)
is translated explicitly at each use site.
-/

set_option maxHeartbeats 1000000

deriving instance DecidableEq for Except

/-! ### Models of the Python string primitives used by the sources -/

/-- The ASCII whitespace characters stripped by Python `str.strip()`. -/
def pyIsSpace (c : Char) : Bool :=
  c == ' ' || c == '\t' || c == '\n' || c == '\r' || c == '\x0b' || c == '\x0c'

/-- `str.lstrip()` on the character list. -/
def lstripWs (l : List Char) : List Char := l.dropWhile pyIsSpace

/-- `str.rstrip()` on the character list. -/
def rstripWs (l : List Char) : List Char := (l.reverse.dropWhile pyIsSpace).reverse

/-- Python `str.strip()`: whitespace removed from both ends. -/
def stripChars (l : List Char) : List Char := rstripWs (lstripWs l)

/-- Python `str.strip()` at the `String` level. -/
def pyStrip (s : String) : String := ⟨stripChars s.data⟩

/-- Python `str.rstrip(";")`: remove every trailing semicolon. -/
def rstripSemisChars (l : List Char) : List Char :=
  (l.reverse.dropWhile (fun c => c == ';')).reverse

/-- Python `str.startswith(pat)` on character lists. -/
def beginsWithChars (l pat : List Char) : Bool := l.take pat.length == pat

/-- Python `str.lower()` on character lists (ASCII case mapping, which is
all the sources rely on: the scrutinised keyword is `select`). -/
def lowerChars (l : List Char) : List Char := l.map Char.toLower

def selectChars : List Char := "select".data

/-! ### `de_assistant/db.py`: configuration loader (lines 14-46)

The process environment and the optional `.env` file are explicit inputs,
modelled as association lists keyed by variable name. -/

/-- A process environment / `.env` file: ordered (name, value) pairs. -/
abbrev EnvMap := List (String × String)

/-- `os.getenv(key)`. -/
def getenv (env : EnvMap) (key : String) : Option String := env.lookup key

/-- `os.getenv(key, default)`. -/
def getenvD (env : EnvMap) (key dflt : String) : String := (env.lookup key).getD dflt

/-- python-dotenv `load_dotenv(override=False)`: each entry of the `.env`
file is added to the process environment unless the variable is already
set; existing variables are never overridden. -/
def load_dotenv_no_override (env file : EnvMap) : EnvMap :=
  file.foldl (fun e kv => if (e.lookup kv.1).isSome then e else e ++ [kv]) env

/-- `DatabaseConfig` dataclass of db.py lines 14-21. -/
structure DatabaseConfig where
  host : String
  port : Int
  dbname : String
  user : String
  password : String
  sslmode : Option String
deriving DecidableEq

/-- Model of Python `int(s)` on the non-negative decimal strings the
config loader deals with (`DB_PORT`, default `"5432"`). -/
def parseDecimal (l : List Char) : Option Nat :=
  if l ≠ [] ∧ l.all Char.isDigit then
    some (l.foldl (fun acc c => acc * 10 + (c.toNat - 48)) 0)
  else none

/-- db.py `load_config_from_env` (lines 24-46).  Returns the process
environment as left by `load_dotenv(override=False)` together with the
outcome, so environment effects are observable in the model.  A
`DB_PORT` that fails to parse raises `ValueError` (modelled as
`Except.error` with the source message). -/
def load_config_from_env (env file : EnvMap) : EnvMap × Except String DatabaseConfig :=
  let env2 := load_dotenv_no_override env file
  let host := getenvD env2 "DB_HOST" "localhost"
  let port_str := getenvD env2 "DB_PORT" "5432"
  let dbname := getenvD env2 "DB_NAME" "postgres"
  let user := getenvD env2 "DB_USER" "postgres"
  let password := getenvD env2 "DB_PASSWORD" "postgres"
  let sslmode := getenv env2 "DB_SSLMODE"
  match parseDecimal port_str.data with
  | none => (env2, Except.error ("DB_PORT must be an integer, got: " ++ port_str))
  | some port => (env2, Except.ok ⟨host, (port : Int), dbname, user, password, sslmode⟩)

/-! ### `de_assistant/db.py`: connection scope (lines 49-67)

`db_connection` opens a psycopg connection and yields it inside
`try: ... finally: connection.close()`.  The model takes the connect
outcome, the body, and the close behaviour as inputs and returns the
number of close calls performed together with the overall outcome.
Python semantics: if `close()` raises inside `finally`, that exception
propagates, replacing any in-flight exception from the body. -/
def db_connection_run {Conn α : Type} (connectResult : Except String Conn)
    (body : Conn → Except String α) (close : Conn → Except String Unit) :
    Nat × Except String α :=
  match connectResult with
  | Except.error e => (0, Except.error e)
  | Except.ok conn =>
    let r := body conn
    match close conn with
    | Except.ok _ => (1, r)
    | Except.error ce => (1, Except.error ce)

/-! ### `de_assistant/db.py`: identifier-safe preview query (lines 106-123)

`fetch_head` builds `sql.SQL("select * from {}.{} limit {};")` formatted
with `sql.Identifier(schema_name)`, `sql.Identifier(table)` and
`sql.Literal(limit)`.  psycopg renders an `Identifier` by wrapping it in
double quotes and doubling every embedded double quote, and renders an
integer `Literal` as its decimal digits. -/

/-- Double every `"` in the identifier body (psycopg identifier escaping). -/
def escapeQuotes : List Char → List Char
  | [] => []
  | c :: rest => if c = '"' then '"' :: '"' :: escapeQuotes rest else c :: escapeQuotes rest

/-- Inverse of `escapeQuotes`: collapse doubled quotes. -/
def unescapeQuotes : List Char → List Char
  | [] => []
  | [c] => [c]
  | c :: d :: rest =>
    if c = '"' ∧ d = '"' then '"' :: unescapeQuotes rest
    else c :: unescapeQuotes (d :: rest)

/-- psycopg `sql.Identifier(s)` rendered to SQL text. -/
def quoteIdent (s : String) : String := ⟨'"' :: (escapeQuotes s.data ++ ['"'])⟩

/-- db.py line 110: `schema_name = schema or "public"` (`None` and the
empty string are both falsy). -/
def schemaOrPublic (schema : Option String) : String :=
  match schema with
  | none => "public"
  | some s => if s = "" then "public" else s

/-- The composed statement text of `fetch_head` (db.py lines 114-118). -/
def previewStmt (schema_name table : String) (limit : Int) : String :=
  "select * from " ++ quoteIdent schema_name ++ "." ++ quoteIdent table
    ++ " limit " ++ Int.repr limit ++ ";"

/-- The statement-building part of `fetch_head` (db.py lines 106-118):
the `limit <= 0` guard (raising `ValueError("limit must be positive")`)
followed by the composition of the preview statement. -/
def build_preview_query (table : String) (schema : Option String) (limit : Int) :
    Except String String :=
  if limit ≤ 0 then Except.error "limit must be positive"
  else Except.ok (previewStmt (schemaOrPublic schema) table limit)

/-- Number of semicolons occurring outside double-quoted identifier
regions, scanning left to right; `inQ` is the current in-quotes state.
SQL quoted identifiers escape an embedded `"` as `""`, which this scan
handles as two state toggles in a row. -/
def tlSemiCount : List Char → Bool → Nat
  | [], _ => 0
  | c :: rest, inQ =>
    if c = '"' then tlSemiCount rest (!inQ)
    else if c = ';' ∧ inQ = false then tlSemiCount rest inQ + 1
    else tlSemiCount rest inQ

/-- The in-quotes state after scanning a character list. -/
def quoteState : List Char → Bool → Bool
  | [], q => q
  | c :: rest, q => quoteState rest (if c = '"' then !q else q)

/-- Semicolons of a statement that sit outside quoted identifiers: the
positions where a second SQL statement could be introduced. -/
def topLevelSemis (s : String) : Nat := tlSemiCount s.data false

/-! ### `de_assistant/db.py`: `run_query` (lines 126-137)

The external database engine is a parameter: it maps a statement text to
either an error or a pair of column names and rows. -/

/-- The external SQL engine as observed by `run_query`. -/
structure Engine (ρ : Type) where
  run : String → Except String (List String × List ρ)

/-- db.py line 127: `text = query.strip().rstrip(";")`. -/
def normalizedQueryChars (q : String) : List Char := rstripSemisChars (stripChars q.data)

/-- db.py line 129 wrapping text: `select * from (text) as subquery limit n`. -/
def wrapLimit (text : String) (v : Int) : String :=
  "select * from (" ++ text ++ ") as subquery limit " ++ Int.repr v

/-- The statement text `run_query` actually executes (db.py lines 127-129):
the stripped query, wrapped only when a limit is given and positive. -/
def preparedText (q : String) (lim : Option Int) : String :=
  let text : String := ⟨normalizedQueryChars q⟩
  match lim with
  | some v => if 0 < v then wrapLimit text v else text
  | none => text

/-- db.py `run_query` (lines 126-137): prepare the text and hand it to the
engine, returning its column names and rows unchanged. -/
def run_query {ρ : Type} (e : Engine ρ) (q : String) (lim : Option Int) :
    Except String (List String × List ρ) :=
  e.run (preparedText q lim)

/-! ### `app/app.py`: `db_test` (lines 52-79)

The asyncpg collaborator is a bundle of abstract operations.  `db_test`
models the whole handler: the falsy-`url` guard, connecting, the
SELECT-vs-command branch inside `try`, the `except` clause that maps any
query failure to HTTP 400, and the `finally` that closes the connection
with its own exceptions suppressed by `try: ... except: pass`. -/

/-- The asyncpg operations used by `db_test`. -/
structure DbOps (Conn Row : Type) where
  connect : String → Except String Conn
  fetch : Conn → String → Except String (List Row)
  exec : Conn → String → Except String String
  close : Conn → Except String Unit

/-- Body of a successful `db_test` response: either a result set
(`{"ok": true, "rows": ..., "rowCount": ...}`) or a command outcome
(`{"ok": true, "status": ...}`); the constant `"ok": true` field is
implicit in both constructors. -/
inductive DbTestBody (Row : Type) : Type
  | rowsResp (rows : List Row) (rowCount : Nat) : DbTestBody Row
  | statusResp (status : String) : DbTestBody Row
deriving DecidableEq

/-- HTTP outcome of `db_test`: 200 with a body, or 400 with a detail
message (`HTTPException(status_code=400, detail=...)`). -/
inductive DbResp (Row : Type) : Type
  | ok200 (body : DbTestBody Row) : DbResp Row
  | err400 (detail : String) : DbResp Row
deriving DecidableEq

/-- app.py line 57: `query = req.query or "SELECT 1 AS ok"` (both `None`
and the empty string are falsy). -/
def effectiveQuery (q? : Option String) : String :=
  match q? with
  | none => "SELECT 1 AS ok"
  | some q => if q = "" then "SELECT 1 AS ok" else q

/-- app.py line 66 classification: `query.strip().lower().startswith("select")`. -/
def isSelectQuery (q : String) : Bool :=
  beginsWithChars (lowerChars (stripChars q.data)) selectChars

/-- The classification exactly as the specification words it: after
trimming leading whitespace and lowercasing, the statement begins with
`select`. -/
def selectAfterLtrim (q : String) : Bool :=
  beginsWithChars (lowerChars (lstripWs q.data)) selectChars

/-- app.py `db_test` (lines 52-79).  Returns the number of `close` calls
performed on the acquired connection together with the HTTP outcome.
The request `url` is the validated string field; a falsy (empty) value
takes the `Missing url` branch. -/
def db_test {Conn Row : Type} (ops : DbOps Conn Row) (url : String) (q? : Option String) :
    Nat × DbResp Row :=
  if url = "" then (0, DbResp.err400 "Missing \x27url\x27")
  else
    let query := effectiveQuery q?
    match ops.connect url with
    | Except.error e => (0, DbResp.err400 ("Connection error: " ++ e))
    | Except.ok conn =>
      let attempt : Except String (DbTestBody Row) :=
        if isSelectQuery query then
          match ops.fetch conn query with
          | Except.ok rows => Except.ok (DbTestBody.rowsResp rows rows.length)
          | Except.error e => Except.error e
        else
          match ops.exec conn query with
          | Except.ok s => Except.ok (DbTestBody.statusResp s)
          | Except.error e => Except.error e
      let resp : DbResp Row :=
        match attempt with
        | Except.ok body => DbResp.ok200 body
        | Except.error e => DbResp.err400 ("Query error: " ++ e)
      -- finally: `await conn.close()` wrapped in try/except pass — it runs
      -- exactly once and its outcome never alters the response.
      let _ := ops.close conn
      (1, resp)

/-! ### `app/app.py`: port discovery (lines 82-116) -/

/-- app.py `_is_port_open` (lines 82-88): the socket layer is a parameter
returning the `connect_ex` code or raising; any exception yields `False`. -/
def is_port_open (probe : String → Nat → Except String Int) (host : String) (port : Nat) :
    Bool :=
  match probe host port with
  | Except.ok code => code == 0
  | Except.error _ => false

/-- app.py line 94. -/
def discoverHosts : List String := ["127.0.0.1", "localhost"]

/-- app.py line 95. -/
def discoverPorts : List Nat := [5432, 5433, 5434, 5435]

/-- app.py lines 104-106: synthesized URL with placeholder credentials. -/
def suggestionUrl (e : String × Nat) : String :=
  "postgres://user:pass@" ++ e.1 ++ ":" ++ Nat.repr e.2 ++ "/postgres"

/-- Response shape of `GET /api/db/discover`. -/
structure DiscoverResp where
  envUrl : Option String
  open_endpoints : List (String × Nat)
  suggestedUrls : List String
  note : String
deriving DecidableEq

/-- app.py `db_discover` (lines 91-116): nested host-major, port-minor
loops appending each open endpoint, then one suggestion per endpoint. -/
def db_discover (envUrl : Option String) (probe : String → Nat → Except String Int) :
    DiscoverResp :=
  let opens := discoverHosts.flatMap fun host =>
    discoverPorts.flatMap fun port =>
      if is_port_open probe host port then [(host, port)] else []
  { envUrl := envUrl
    open_endpoints := opens
    suggestedUrls := opens.map suggestionUrl
    note := "Открытые порты найдены. Укажи свои user/pass/db в URL." }

/-! ### `app/app.py`: chat endpoint (lines 172-193)

The compiled LangGraph is a parameter: `none` when LangGraph/LLM support
is not configured, otherwise an invoke function that may raise, and on
success returns the `output` entry of the result dict (`none` when the
result is not a dict or has no output). -/

/-- HTTP outcome of `POST /api/chat`. -/
inductive ChatResp : Type
  | ok200 (reply echo : String) : ChatResp
  | err400 (detail : String) : ChatResp
deriving DecidableEq

/-- app.py `chat` (lines 172-193). -/
def chat (graph : Option (String → Except String (Option String))) (message : String) :
    ChatResp :=
  let text := pyStrip message
  if text = "" then ChatResp.err400 "Empty message"
  else
    match graph with
    | none => ChatResp.ok200 "Заглушка: я получил ваше сообщение." text
    | some invoke =>
      match invoke text with
      | Except.ok out =>
        -- line 186-187: `output = result.get("output") ...` then
        -- `output or "(пусто)"` — None and "" both fall back.
        let output := out.getD ""
        ChatResp.ok200 (if output = "" then "(пусто)" else output) text
      | Except.error e => ChatResp.ok200 ("Заглушка (ошибка LLM: " ++ e ++ ")") text

/-! ### Concrete collaborator instances used by the witnesses -/

/-- A database whose every fetch returns one row `7` and every command
reports `INSERT 0 1`; connecting fails only on an empty URL. -/
def demoOps : DbOps Unit Nat :=
  { connect := fun u => if u = "" then Except.error "refused" else Except.ok ()
    fetch := fun _ _ => Except.ok [7]
    exec := fun _ _ => Except.ok "INSERT 0 1"
    close := fun _ => Except.ok () }

/-- A database that refuses every connection. -/
def refusingOps : DbOps Unit Nat :=
  { connect := fun _ => Except.error "refused"
    fetch := fun _ _ => Except.ok []
    exec := fun _ _ => Except.ok ""
    close := fun _ => Except.ok () }

/-- A database whose statement execution always fails. -/
def failingQueryOps : DbOps Unit Nat :=
  { connect := fun _ => Except.ok ()
    fetch := fun _ _ => Except.error "syntax error"
    exec := fun _ _ => Except.error "syntax error"
    close := fun _ => Except.ok () }

/-- A database whose close always fails (close errors must be invisible). -/
def failingCloseOps : DbOps Unit Nat :=
  { connect := fun u => if u = "" then Except.error "refused" else Except.ok ()
    fetch := fun _ _ => Except.ok [7]
    exec := fun _ _ => Except.ok "INSERT 0 1"
    close := fun _ => Except.error "close boom" }

/-- A body that raises. -/
def failBody : Unit → Except String Unit := fun _ => Except.error "body error"

/-- A close that raises. -/
def failClose : Unit → Except String Unit := fun _ => Except.error "close error"

/-- A socket layer with exactly one open port; all other probes time out. -/
def demoProbe : String → Nat → Except String Int := fun h p =>
  if h = "127.0.0.1" ∧ p = 5433 then Except.ok 0 else Except.error "timeout"

/-- A configured LLM graph whose invocation always raises. -/
def failingGraph : Option (String → Except String (Option String)) :=
  some fun _ => Except.error "missing API key"

/-- A tiny engine implementing LIMIT semantics at the three statements the
`run_query` witness exercises. -/
def toyEngine : Engine Nat :=
  ⟨fun s =>
    if s = "select 1" then Except.ok (["a"], [1, 2, 3])
    else if s = wrapLimit "select 1" 2 then Except.ok (["a"], [1, 2])
    else if s = wrapLimit (wrapLimit "select 1" 2) 2 then Except.ok (["a"], [1, 2])
    else Except.error "unsupported"⟩

/-! ### Basic facts about the string model -/

theorem strData_append (s t : String) : (s ++ t).data = s.data ++ t.data := by
  cases s; cases t; rfl

theorem strMk_data (s : String) : (⟨s.data⟩ : String) = s := by
  cases s; rfl

theorem beginsWithChars_iff (l pat : List Char) :
    beginsWithChars l pat = true ↔ l.take pat.length = pat := by
  simp [beginsWithChars]

theorem isPrefix_lower_of_isPrefix {l₁ l₂ : List Char} (h : l₁ <+: l₂) :
    lowerChars l₁ <+: lowerChars l₂ :=
  List.IsPrefix.map Char.toLower h

theorem rstrip_isPrefix (p : Char → Bool) (l : List Char) :
    (l.reverse.dropWhile p).reverse <+: l := by
  have h : ((l.reverse.dropWhile p).reverse).reverse <:+ l.reverse := by
    simpa using List.dropWhile_suffix (l := l.reverse) p
  exact List.reverse_suffix.mp h

theorem beginsWith_of_isPrefix {l₁ l₂ pat : List Char} (hp : l₁ <+: l₂)
    (h : beginsWithChars l₁ pat = true) : beginsWithChars l₂ pat = true := by
  rw [beginsWithChars_iff] at h ⊢
  obtain ⟨t, rfl⟩ := hp
  have hlen : pat.length ≤ l₁.length := by
    have hl := congrArg List.length h
    rw [List.length_take] at hl
    exact min_eq_left_iff.mp hl
  rw [List.take_append_of_le_length hlen, h]

theorem pyIsSpace_toLower {c : Char} (h : pyIsSpace c = true) : Char.toLower c = c := by
  have hc := h
  simp only [pyIsSpace, Bool.or_eq_true, beq_iff_eq] at hc
  rcases hc with ((((h | h) | h) | h) | h) | h <;> subst h <;> decide

theorem selectChars_facts :
    selectChars.length = 6 ∧ ∀ c ∈ selectChars, pyIsSpace c = false := by decide

/-! ### The classification predicate: `strip()` and `lstrip()` agree

app.py checks `query.strip().lower().startswith("select")`; the claim
words the condition with only leading whitespace trimmed.  The two are
equivalent because the scrutinised keyword contains no whitespace. -/

theorem isSelect_iff_ltrim (q : String) :
    isSelectQuery q = true ↔ selectAfterLtrim q = true := by
  unfold isSelectQuery selectAfterLtrim stripChars
  generalize lstripWs q.data = m
  constructor
  · intro h
    exact beginsWith_of_isPrefix
      (isPrefix_lower_of_isPrefix (rstrip_isPrefix pyIsSpace m)) h
  · intro h
    rw [beginsWithChars_iff] at h ⊢
    set k := selectChars.length with hk
    have hkm : k ≤ m.length := by
      have hl := congrArg List.length h
      rw [List.length_take, lowerChars, List.length_map] at hl
      exact min_eq_left_iff.mp hl
    have htakelen : (m.take k).length = k := by
      rw [List.length_take]; exact min_eq_left hkm
    have hlowtake : lowerChars (m.take k) = selectChars := by
      rw [lowerChars, List.map_take, ← lowerChars, h]
    have hnospace : ∀ c ∈ m.take k, pyIsSpace c = false := by
      intro c hc
      by_cases hsp : pyIsSpace c = true
      · have hmem : Char.toLower c ∈ lowerChars (m.take k) :=
          List.mem_map_of_mem Char.toLower hc
        rw [hlowtake] at hmem
        have hns := selectChars_facts.2 _ hmem
        rw [pyIsSpace_toLower hsp] at hns
        rw [hsp] at hns; cases hns
      · exact eq_false_of_ne_true hsp
    have hAne : m.take k ≠ [] := by
      intro hnil
      rw [hnil] at htakelen
      exact absurd htakelen (by decide)
    have hsplit := List.take_append_drop k m
    -- rewrite m.reverse as (drop).reverse ++ (take).reverse and case on
    -- whether the whitespace run swallows all of (drop).reverse
    have hrev : m.reverse = (m.drop k).reverse ++ (m.take k).reverse := by
      conv_lhs => rw [← hsplit]
      rw [List.reverse_append]
    obtain ⟨c0, X0, hcX⟩ := List.exists_cons_of_ne_nil
      (fun hn => hAne (List.reverse_eq_nil_iff.mp hn) : (m.take k).reverse ≠ [])
    have hc0 : pyIsSpace c0 = false := by
      refine hnospace c0 ?_
      rw [← List.mem_reverse, hcX]; exact List.mem_cons_self c0 X0
    have hdropA : (m.take k).reverse.dropWhile pyIsSpace = (m.take k).reverse := by
      rw [hcX, List.dropWhile_cons, hc0]; simp
    rw [rstripWs, hrev, List.dropWhile_append]
    by_cases hemp : ((m.drop k).reverse.dropWhile pyIsSpace).isEmpty = true
    · rw [if_pos hemp, hdropA, List.reverse_reverse]
      rw [lowerChars, List.map_take, List.take_take, Nat.min_self]
      exact h
    · rw [if_neg hemp, List.reverse_append, List.reverse_reverse]
      rw [lowerChars, List.map_append, ← lowerChars]
      have hlen' : (lowerChars (m.take k)).length = k := by
        rw [lowerChars, List.length_map, htakelen]
      rw [List.take_left' hlen', hlowtake]

/-! ### Scanner facts: semicolons outside quoted identifiers -/

theorem quoteState_append (xs ys : List Char) (q : Bool) :
    quoteState (xs ++ ys) q = quoteState ys (quoteState xs q) := by
  induction xs generalizing q with
  | nil => rfl
  | cons c rest ih => simp [quoteState, ih]

theorem tlSemiCount_append (xs ys : List Char) (q : Bool) :
    tlSemiCount (xs ++ ys) q = tlSemiCount xs q + tlSemiCount ys (quoteState xs q) := by
  induction xs generalizing q with
  | nil => simp [tlSemiCount, quoteState]
  | cons c rest ih =>
    by_cases hc : c = '"'
    · simp [tlSemiCount, quoteState, hc, ih]
    · by_cases hs : c = ';' ∧ q = false
      · simp [tlSemiCount, quoteState, hc, hs, ih]; omega
      · simp [tlSemiCount, quoteState, hc, hs, ih]

theorem escapeQuotes_quoteState (l : List Char) (q : Bool) :
    quoteState (escapeQuotes l) q = q := by
  induction l generalizing q with
  | nil => rfl
  | cons c rest ih =>
    by_cases hc : c = '"'
    · simp [escapeQuotes, quoteState, hc, ih]
    · simp [escapeQuotes, quoteState, hc, ih]

theorem escapeQuotes_tlSemiCount (l : List Char) :
    tlSemiCount (escapeQuotes l) true = 0 := by
  induction l with
  | nil => rfl
  | cons c rest ih =>
    by_cases hc : c = '"'
    · simp [escapeQuotes, tlSemiCount, hc, ih]
    · simp [escapeQuotes, tlSemiCount, hc, ih]

theorem quoteState_of_plain (l : List Char) (q : Bool) (h : ∀ c ∈ l, c ≠ '"') :
    quoteState l q = q := by
  induction l generalizing q with
  | nil => rfl
  | cons c rest ih =>
    have hc := h c (List.mem_cons_self c rest)
    simp only [quoteState, if_neg hc]
    exact ih q fun d hd => h d (List.mem_cons_of_mem c hd)

theorem tlSemiCount_of_plain (l : List Char) (q : Bool)
    (h : ∀ c ∈ l, c ≠ '"' ∧ c ≠ ';') : tlSemiCount l q = 0 := by
  induction l generalizing q with
  | nil => rfl
  | cons c rest ih =>
    have hc := h c (List.mem_cons_self c rest)
    have htail : ∀ d ∈ rest, d ≠ '"' ∧ d ≠ ';' := fun d hd => h d (List.mem_cons_of_mem c hd)
    simp only [tlSemiCount, if_neg hc.1]
    rw [if_neg (fun hand => hc.2 hand.1)]
    exact ih q htail

theorem quoteIdent_data (s : String) :
    (quoteIdent s).data = '"' :: (escapeQuotes s.data ++ ['"']) := rfl

theorem quoteIdent_tlSemiCount (s : String) :
    tlSemiCount (quoteIdent s).data false = 0 := by
  rw [quoteIdent_data]
  show tlSemiCount ('"' :: (escapeQuotes s.data ++ ['"'])) false = 0
  simp only [tlSemiCount, if_pos rfl, Bool.not_false]
  rw [tlSemiCount_append, escapeQuotes_tlSemiCount, escapeQuotes_quoteState]
  rfl

theorem quoteIdent_quoteState (s : String) :
    quoteState (quoteIdent s).data false = false := by
  rw [quoteIdent_data]
  show quoteState ('"' :: (escapeQuotes s.data ++ ['"'])) false = false
  simp only [quoteState, if_pos rfl, Bool.not_false]
  rw [quoteState_append, escapeQuotes_quoteState]
  rfl

/-! ### The identifier escape round-trips -/

theorem escapeQuotes_eq_nil_iff (l : List Char) : escapeQuotes l = [] ↔ l = [] := by
  cases l with
  | nil => simp [escapeQuotes]
  | cons c rest =>
    constructor
    · intro h
      by_cases hc : c = '"' <;> simp [escapeQuotes, hc] at h
    · intro h; cases h

theorem unescape_escape (l : List Char) : unescapeQuotes (escapeQuotes l) = l := by
  induction l with
  | nil => rfl
  | cons c rest ih =>
    by_cases hc : c = '"'
    · subst hc
      show unescapeQuotes ('"' :: '"' :: escapeQuotes rest) = '"' :: rest
      rw [show unescapeQuotes ('"' :: '"' :: escapeQuotes rest)
            = '"' :: unescapeQuotes (escapeQuotes rest) from by
          simp [unescapeQuotes], ih]
    · rw [show escapeQuotes (c :: rest) = c :: escapeQuotes rest from by
          simp [escapeQuotes, hc]]
      cases hrest : escapeQuotes rest with
      | nil =>
        have : rest = [] := (escapeQuotes_eq_nil_iff rest).mp hrest
        subst this; rfl
      | cons d X =>
        rw [show unescapeQuotes (c :: d :: X) = c :: unescapeQuotes (d :: X) from by
          simp [unescapeQuotes, hc]]
        rw [← hrest, ih]

/-! ### Decimal rendering of a positive limit: digits only -/

theorem toDigitsCore_chars (fuel : Nat) : ∀ (n : Nat) (acc : List Char),
    (∀ c ∈ acc, ∃ m, m < 10 ∧ c = Nat.digitChar m) →
    ∀ c ∈ Nat.toDigitsCore 10 fuel n acc, ∃ m, m < 10 ∧ c = Nat.digitChar m := by
  induction fuel with
  | zero => intro n acc hacc c hc; exact hacc c hc
  | succ fuel ih =>
    intro n acc hacc c hc
    have hd : ∀ e ∈ (Nat.digitChar (n % 10) :: acc), ∃ m, m < 10 ∧ e = Nat.digitChar m := by
      intro e he
      rcases List.mem_cons.mp he with he | he
      · exact ⟨n % 10, Nat.mod_lt n (by omega), he⟩
      · exact hacc e he
    rw [show Nat.toDigitsCore 10 (fuel + 1) n acc
          = (if n / 10 = 0 then Nat.digitChar (n % 10) :: acc
             else Nat.toDigitsCore 10 fuel (n / 10) (Nat.digitChar (n % 10) :: acc)) from by
        simp [Nat.toDigitsCore]] at hc
    by_cases hz : n / 10 = 0
    · rw [if_pos hz] at hc; exact hd c hc
    · rw [if_neg hz] at hc; exact ih (n / 10) _ hd c hc

theorem toDigitsCore_ne_nil (fuel : Nat) : ∀ (n : Nat) (acc : List Char),
    acc ≠ [] → Nat.toDigitsCore 10 fuel n acc ≠ [] := by
  induction fuel with
  | zero => intro n acc hacc; exact hacc
  | succ fuel ih =>
    intro n acc hacc
    rw [show Nat.toDigitsCore 10 (fuel + 1) n acc
          = (if n / 10 = 0 then Nat.digitChar (n % 10) :: acc
             else Nat.toDigitsCore 10 fuel (n / 10) (Nat.digitChar (n % 10) :: acc)) from by
        simp [Nat.toDigitsCore]]
    by_cases hz : n / 10 = 0
    · rw [if_pos hz]; exact List.cons_ne_nil _ _
    · rw [if_neg hz]; exact ih (n / 10) _ (List.cons_ne_nil _ _)

theorem toDigits_ne_nil (n : Nat) : Nat.toDigits 10 n ≠ [] := by
  rw [Nat.toDigits]
  rw [show Nat.toDigitsCore 10 (n + 1) n []
        = (if n / 10 = 0 then Nat.digitChar (n % 10) :: []
           else Nat.toDigitsCore 10 n (n / 10) (Nat.digitChar (n % 10) :: [])) from by
      simp [Nat.toDigitsCore]]
  by_cases hz : n / 10 = 0
  · rw [if_pos hz]; exact List.cons_ne_nil _ _
  · rw [if_neg hz]; exact toDigitsCore_ne_nil n (n / 10) _ (List.cons_ne_nil _ _)

theorem digitChar_facts : ∀ m, m < 10 →
    pyIsSpace (Nat.digitChar m) = false ∧ (Nat.digitChar m == ';') = false
    ∧ Nat.digitChar m ≠ ';' ∧ Nat.digitChar m ≠ '"'
    ∧ (Nat.digitChar m).isDigit = true := by decide

theorem intRepr_pos_data (i : Int) (h : 0 < i) :
    (Int.repr i).data = Nat.toDigits 10 i.toNat := by
  cases i with
  | ofNat m => rfl
  | negSucc m => exact absurd h (by simp)

theorem intRepr_pos_digit_chars (i : Int) (h : 0 < i) :
    (Int.repr i).data ≠ [] ∧
    ∀ c ∈ (Int.repr i).data, ∃ m, m < 10 ∧ c = Nat.digitChar m := by
  rw [intRepr_pos_data i h]
  refine ⟨toDigits_ne_nil _, ?_⟩
  rw [Nat.toDigits]
  exact toDigitsCore_chars _ _ [] (by intro c hc; cases hc)

/-! ### `run_query` wrapping: the wrapped text is already normalized

The wrapped statement starts with a non-whitespace character and ends
with a decimal digit, so `strip()` and `rstrip(";")` leave it unchanged
when fed back through `run_query`. -/

theorem normalized_wrap (t : String) (v : Int) (hv : 0 < v) :
    normalizedQueryChars (wrapLimit t v) = (wrapLimit t v).data := by
  obtain ⟨hne, hdig⟩ := intRepr_pos_digit_chars v hv
  obtain ⟨c0, X0, hcX⟩ := List.exists_cons_of_ne_nil
    (fun hn => hne (List.reverse_eq_nil_iff.mp hn) : (Int.repr v).data.reverse ≠ [])
  have hc0mem : c0 ∈ (Int.repr v).data := by
    rw [← List.mem_reverse, hcX]; exact List.mem_cons_self c0 X0
  obtain ⟨m, hm, hc0⟩ := hdig c0 hc0mem
  subst hc0
  have hfacts := digitChar_facts m hm
  have hW : (wrapLimit t v).data
      = ("select * from (" ++ t ++ ") as subquery limit ").data ++ (Int.repr v).data := by
    rw [show wrapLimit t v
          = ("select * from (" ++ t ++ ") as subquery limit ") ++ Int.repr v from rfl]
    rw [strData_append]
  have hrev : (wrapLimit t v).data.reverse
      = Nat.digitChar m :: (X0 ++ ("select * from (" ++ t ++ ") as subquery limit ").data.reverse) := by
    rw [hW, List.reverse_append, hcX, List.cons_append]
  have hcons : ∃ rest, (wrapLimit t v).data = 's' :: rest := by
    refine ⟨("elect * from (" : String).data ++ t.data
      ++ (") as subquery limit " : String).data ++ (Int.repr v).data, ?_⟩
    rw [hW, strData_append, strData_append]
    rw [show ("select * from (" : String).data
          = 's' :: ("elect * from (" : String).data from rfl]
    simp [List.append_assoc]
  obtain ⟨rest, hconsW⟩ := hcons
  have h1 : lstripWs (wrapLimit t v).data = (wrapLimit t v).data := by
    rw [lstripWs, hconsW, List.dropWhile_cons]
    rw [if_neg (by decide : ¬ pyIsSpace 's' = true)]
  have h2 : rstripWs (wrapLimit t v).data = (wrapLimit t v).data := by
    rw [rstripWs, hrev, List.dropWhile_cons, hfacts.1]
    simp only [Bool.false_eq_true, if_false]
    rw [← hrev, List.reverse_reverse]
  have h3 : rstripSemisChars (wrapLimit t v).data = (wrapLimit t v).data := by
    rw [rstripSemisChars, hrev, List.dropWhile_cons, hfacts.2.1]
    simp only [Bool.false_eq_true, if_false]
    rw [← hrev, List.reverse_reverse]
  rw [normalizedQueryChars, stripChars, h1, h2, h3]

/-! ### Environment facts for the configuration loader -/

theorem lookup_append_env (l₁ l₂ : EnvMap) (k : String) :
    (l₁ ++ l₂).lookup k = (l₁.lookup k).or (l₂.lookup k) := by
  induction l₁ with
  | nil => rfl
  | cons kv l₁ ih =>
    obtain ⟨a, b⟩ := kv
    rw [List.cons_append, List.lookup_cons, List.lookup_cons]
    cases h : k == a
    · simpa using ih
    · rfl

theorem dotenv_preserves (file : EnvMap) : ∀ (env : EnvMap) (k : String),
    (env.lookup k).isSome → (load_dotenv_no_override env file).lookup k = env.lookup k := by
  induction file with
  | nil => intro env k _; rfl
  | cons kv file ih =>
    intro env k h
    rw [load_dotenv_no_override, List.foldl_cons]
    by_cases hk : (env.lookup kv.1).isSome
    · rw [if_pos hk]
      exact ih env k h
    · rw [if_neg hk]
      have hlk : (env ++ [kv]).lookup k = env.lookup k := by
        obtain ⟨w, hw⟩ := Option.isSome_iff_exists.mp h
        rw [lookup_append_env, hw]; rfl
      have := ih (env ++ [kv]) k (by rw [hlk]; exact h)
      rw [load_dotenv_no_override] at this
      rw [this, hlk]

theorem load_config_fst (env file : EnvMap) :
    (load_config_from_env env file).1 = load_dotenv_no_override env file := by
  rw [load_config_from_env]
  cases parseDecimal (getenvD (load_dotenv_no_override env file) "DB_PORT" "5432").data
  · rfl
  · rfl

/-! ### Discovery loop shape -/

theorem flatMap_if_singleton {α β : Type} (l : List α) (f : α → β) (p : β → Bool) :
    (l.flatMap fun a => if p (f a) = true then [f a] else []) = (l.map f).filter p := by
  induction l with
  | nil => rfl
  | cons a l ih =>
    rw [List.flatMap_cons, List.map_cons, List.filter_cons, ih]
    by_cases h : p (f a) = true
    · rw [if_pos h, if_pos h]; rfl
    · rw [if_neg h, if_neg (by simpa using h)]; rfl

/-! ## Claim theorems -/

/-- Claim C1: every successful execution through `POST /api/db/test`
produces exactly one of a Result Set (`rows` + `rowCount`) or a Command
Outcome (`status`), never both; the branch is decided by whether the
statement, after trimming leading whitespace and lowercasing, begins
with `select`; in the row branch every fetched row lands in the `rows`
list eagerly and `rowCount` is its length. -/
theorem db_test_branch_classification {Conn Row : Type} (ops : DbOps Conn Row)
    (url : String) (q? : Option String) (conn : Conn)
    (hurl : url ≠ "") (hconn : ops.connect url = Except.ok conn) :
    (isSelectQuery (effectiveQuery q?) = true ↔ selectAfterLtrim (effectiveQuery q?) = true)
    ∧ (isSelectQuery (effectiveQuery q?) = true →
        ∀ rows, ops.fetch conn (effectiveQuery q?) = Except.ok rows →
          (db_test ops url q?).2 = DbResp.ok200 (DbTestBody.rowsResp rows rows.length))
    ∧ (isSelectQuery (effectiveQuery q?) = false →
        ∀ s, ops.exec conn (effectiveQuery q?) = Except.ok s →
          (db_test ops url q?).2 = DbResp.ok200 (DbTestBody.statusResp s))
    ∧ (∀ rows cnt, (db_test ops url q?).2 = DbResp.ok200 (DbTestBody.rowsResp rows cnt) →
        isSelectQuery (effectiveQuery q?) = true)
    ∧ (∀ s, (db_test ops url q?).2 = DbResp.ok200 (DbTestBody.statusResp s) →
        isSelectQuery (effectiveQuery q?) = false) := by
  refine ⟨isSelect_iff_ltrim _, ?_, ?_, ?_, ?_⟩
  · intro hsel rows hrows
    simp [db_test, hurl, hconn, hsel, hrows]
  · intro hsel s hs
    simp [db_test, hurl, hconn, hsel, hs]
  · intro rows cnt h
    cases hsel : isSelectQuery (effectiveQuery q?) with
    | true => rfl
    | false =>
      cases hex : ops.exec conn (effectiveQuery q?) with
      | ok s => simp [db_test, hurl, hconn, hsel, hex] at h
      | error e => simp [db_test, hurl, hconn, hsel, hex] at h
  · intro s h
    cases hsel : isSelectQuery (effectiveQuery q?) with
    | false => rfl
    | true =>
      cases hf : ops.fetch conn (effectiveQuery q?) with
      | ok rows => simp [db_test, hurl, hconn, hsel, hf] at h
      | error e => simp [db_test, hurl, hconn, hsel, hf] at h

/-- Witness for C1 on the demo database: a SELECT statement yields the
row response with `rowCount = 1`; a DDL statement yields the status
response. -/
theorem db_test_branch_classification_witness :
    (db_test demoOps "postgres://u:p@localhost:5432/db" (some "select 1 as ok")).2
      = DbResp.ok200 (DbTestBody.rowsResp [7] 1)
    ∧ (db_test demoOps "postgres://u:p@localhost:5432/db" (some "create table t (x int)")).2
      = DbResp.ok200 (DbTestBody.statusResp "INSERT 0 1") := by
  have h1 := db_test_branch_classification demoOps "postgres://u:p@localhost:5432/db"
    (some "select 1 as ok") () (by decide) rfl
  have h2 := db_test_branch_classification demoOps "postgres://u:p@localhost:5432/db"
    (some "create table t (x int)") () (by decide) rfl
  exact ⟨h1.2.1 (by decide) [7] rfl, h2.2.2.1 (by decide) "INSERT 0 1" rfl⟩

/-- Claim C4: once a connection is acquired it is closed exactly once on
every exit path of the connection scope — body success, body failure,
even a failing close — and a body failure is never swallowed: the scope
never reports success after the body failed, and `db_test` maps the body
failure to an error response. -/
theorem connection_scope_close_once {Conn α Row : Type} (c : Conn)
    (body : Conn → Except String α) (close : Conn → Except String Unit)
    (e0 : String) (ops : DbOps Conn Row) (url : String) (q? : Option String) :
    (db_connection_run (Except.error e0) body close).1 = 0
    ∧ (db_connection_run (Except.ok c) body close).1 = 1
    ∧ (∀ be, body c = Except.error be →
        ∀ r, (db_connection_run (Except.ok c) body close).2 = Except.ok r → False)
    ∧ (url ≠ "" → ∀ conn, ops.connect url = Except.ok conn → (db_test ops url q?).1 = 1)
    ∧ (∀ ce, ops.connect url = Except.error ce → (db_test ops url q?).1 = 0)
    ∧ (url = "" → (db_test ops url q?).1 = 0)
    ∧ (url ≠ "" → ∀ conn qe, ops.connect url = Except.ok conn →
        (isSelectQuery (effectiveQuery q?) = true →
          ops.fetch conn (effectiveQuery q?) = Except.error qe →
          (db_test ops url q?).2 = DbResp.err400 ("Query error: " ++ qe))
        ∧ (isSelectQuery (effectiveQuery q?) = false →
          ops.exec conn (effectiveQuery q?) = Except.error qe →
          (db_test ops url q?).2 = DbResp.err400 ("Query error: " ++ qe))) := by
  refine ⟨rfl, ?_, ?_, ?_, ?_, ?_, ?_⟩
  · cases hclose : close c <;> simp [db_connection_run, hclose]
  · intro be hbe r hok
    cases hclose : close c <;> simp [db_connection_run, hclose, hbe] at hok
  · intro hurl conn hconn
    by_cases hsel : isSelectQuery (effectiveQuery q?) = true
    · cases hf : ops.fetch conn (effectiveQuery q?) <;>
        simp [db_test, hurl, hconn, hsel, hf]
    · cases hex : ops.exec conn (effectiveQuery q?) <;>
        simp [db_test, hurl, hconn, hsel, hex]
  · intro ce hconn
    by_cases hu : url = ""
    · simp [db_test, hu]
    · simp [db_test, hu, hconn]
  · intro hu; simp [db_test, hu]
  · intro hurl conn qe hconn
    constructor
    · intro hsel hf
      simp [db_test, hurl, hconn, hsel, hf]
    · intro hsel hex
      simp [db_test, hurl, hconn, hsel, hex]

/-- Witness for C4: close is attempted exactly once when a connection
was acquired (here even though both body and close fail), and not at all
when connecting failed. -/
theorem connection_scope_close_once_witness :
    (db_connection_run (Except.ok ()) failBody failClose).1 = 1
    ∧ (db_test demoOps "postgres://x" none).1 = 1
    ∧ (db_test refusingOps "postgres://x" none).1 = 0 := by
  have h1 := connection_scope_close_once () failBody failClose "e" demoOps "postgres://x"
    (none : Option String)
  have h2 := connection_scope_close_once () failBody failClose "e" refusingOps "postgres://x"
    (none : Option String)
  exact ⟨h1.2.1, h1.2.2.2.1 (by decide) () rfl, h2.2.2.2.2.1 "refused" rfl⟩

/-- Counterexample to claim C5 as stated: in `db_connection` (db.py),
`connection.close()` runs in a bare `finally`, so when both the body and
the close fail, the caller observes the close error, not the body error —
the close failure is not suppressed and masks the primary error. -/
theorem db_connection_close_error_masks :
    (db_connection_run (Except.ok ()) failBody failClose).2 = Except.error "close error"
    ∧ (db_connection_run (Except.ok ()) failBody failClose).2 ≠ Except.error "body error" :=
  ⟨rfl, by decide⟩

/-- Claim C5 (amended): in `db_test` (app.py) the close failure is
suppressed — the response is entirely independent of the close
behaviour — while in `db_connection` (db.py) close runs in a bare
`finally`, so a close success propagates the body outcome unchanged but
a close failure propagates the close error, replacing the body outcome. -/
theorem close_error_handling_by_scope {Conn α Row : Type} (c : Conn)
    (body : Conn → Except String α) (close : Conn → Except String Unit)
    (ops ops2 : DbOps Conn Row) (url : String) (q? : Option String) :
    (∀ u, close c = Except.ok u → (db_connection_run (Except.ok c) body close).2 = body c)
    ∧ (∀ ce, close c = Except.error ce →
        (db_connection_run (Except.ok c) body close).2 = Except.error ce)
    ∧ (ops.connect = ops2.connect → ops.fetch = ops2.fetch → ops.exec = ops2.exec →
        db_test ops url q? = db_test ops2 url q?) := by
  refine ⟨?_, ?_, ?_⟩
  · intro u hu; simp [db_connection_run, hu]
  · intro ce hce; simp [db_connection_run, hce]
  · intro h1 h2 h3
    simp only [db_test, h1, h2, h3]

/-- Witness for C5 (amended): the masking behaviour of `db_connection`
at a failing body and failing close, and the invisibility of the close
outcome in `db_test` (`failingCloseOps` and `demoOps` differ only in
`close`). -/
theorem close_error_handling_by_scope_witness :
    (db_connection_run (Except.ok ()) failBody failClose).2 = Except.error "close error"
    ∧ db_test failingCloseOps "postgres://local" (some "select 1")
        = db_test demoOps "postgres://local" (some "select 1") := by
  have h := close_error_handling_by_scope () failBody failClose failingCloseOps demoOps
    "postgres://local" (some "select 1")
  exact ⟨h.2.1 "close error" rfl, h.2.2 rfl rfl rfl⟩

/-- Claim C6: the `POST /api/db/test` contract — falsy `url` gives 400;
a connect failure gives 400 with the underlying message in the detail; a
query failure gives 400 with the underlying message; success gives 200
with either rows + rowCount (equal to the number of returned rows) or a
status string. -/
theorem db_test_http_contract {Conn Row : Type} (ops : DbOps Conn Row)
    (url : String) (q? : Option String) :
    (url = "" → (db_test ops url q?).2 = DbResp.err400 "Missing \x27url\x27")
    ∧ (url ≠ "" → ∀ e, ops.connect url = Except.error e →
        (db_test ops url q?).2 = DbResp.err400 ("Connection error: " ++ e))
    ∧ (url ≠ "" → ∀ conn, ops.connect url = Except.ok conn →
        (∀ e, isSelectQuery (effectiveQuery q?) = true →
          ops.fetch conn (effectiveQuery q?) = Except.error e →
          (db_test ops url q?).2 = DbResp.err400 ("Query error: " ++ e))
        ∧ (∀ e, isSelectQuery (effectiveQuery q?) = false →
          ops.exec conn (effectiveQuery q?) = Except.error e →
          (db_test ops url q?).2 = DbResp.err400 ("Query error: " ++ e))
        ∧ (∀ rows, isSelectQuery (effectiveQuery q?) = true →
          ops.fetch conn (effectiveQuery q?) = Except.ok rows →
          (db_test ops url q?).2 = DbResp.ok200 (DbTestBody.rowsResp rows rows.length))
        ∧ (∀ s, isSelectQuery (effectiveQuery q?) = false →
          ops.exec conn (effectiveQuery q?) = Except.ok s →
          (db_test ops url q?).2 = DbResp.ok200 (DbTestBody.statusResp s))) := by
  refine ⟨?_, ?_, ?_⟩
  · intro hu; simp [db_test, hu]
  · intro hurl e hconn; simp [db_test, hurl, hconn]
  · intro hurl conn hconn
    refine ⟨?_, ?_, ?_, ?_⟩
    · intro e hsel hf; simp [db_test, hurl, hconn, hsel, hf]
    · intro e hsel hex; simp [db_test, hurl, hconn, hsel, hex]
    · intro rows hsel hf; simp [db_test, hurl, hconn, hsel, hf]
    · intro s hsel hex; simp [db_test, hurl, hconn, hsel, hex]

/-- Witness for C6: all four response shapes at concrete inputs. -/
theorem db_test_http_contract_witness :
    (db_test demoOps "" none).2 = DbResp.err400 "Missing \x27url\x27"
    ∧ (db_test refusingOps "postgres://x" none).2
        = DbResp.err400 ("Connection error: " ++ "refused")
    ∧ (db_test failingQueryOps "postgres://x" (some "select 1")).2
        = DbResp.err400 ("Query error: " ++ "syntax error")
    ∧ (db_test demoOps "postgres://x" none).2
        = DbResp.ok200 (DbTestBody.rowsResp [7] 1) := by
  have h0 := db_test_http_contract demoOps "" (none : Option String)
  have h1 := db_test_http_contract refusingOps "postgres://x" (none : Option String)
  have h2 := db_test_http_contract failingQueryOps "postgres://x" (some "select 1")
  have h3 := db_test_http_contract demoOps "postgres://x" (none : Option String)
  refine ⟨h0.1 rfl, h1.2.1 (by decide) "refused" rfl, ?_, ?_⟩
  · exact (h2.2.2 (by decide) () rfl).1 "syntax error" (by decide) rfl
  · exact (h3.2.2 (by decide) () rfl).2.2.1 [7] (by decide) rfl

/-- Claim C7: `POST /api/chat` never propagates an LLM failure: for a
non-whitespace message the response is always 200 and echoes the
stripped message, and when the graph invocation raises the reply is the
stub describing the failure; only an empty (or whitespace-only) message
yields 400. -/
theorem chat_never_propagates_llm_failure
    (graph : Option (String → Except String (Option String))) (message : String) :
    (pyStrip message = "" → chat graph message = ChatResp.err400 "Empty message")
    ∧ (pyStrip message ≠ "" →
        (∃ reply, chat graph message = ChatResp.ok200 reply (pyStrip message))
        ∧ (∀ f e, graph = some f → f (pyStrip message) = Except.error e →
            chat graph message
              = ChatResp.ok200 ("Заглушка (ошибка LLM: " ++ e ++ ")") (pyStrip message))) := by
  constructor
  · intro h; simp [chat, h]
  · intro h
    constructor
    · cases graph with
      | none => exact ⟨"Заглушка: я получил ваше сообщение.", by simp [chat, h]⟩
      | some f =>
        cases hf : f (pyStrip message) with
        | ok out =>
          refine ⟨if out.getD "" = "" then "(пусто)" else out.getD "", ?_⟩
          simp [chat, h, hf]
        | error e =>
          refine ⟨"Заглушка (ошибка LLM: " ++ e ++ ")", ?_⟩
          simp [chat, h, hf]
    · intro f e hg hf
      subst hg
      simp [chat, h, hf]

/-- Witness for C7: a raising LLM graph still gets a 200 stub response
with the echo; a whitespace-only message gets 400. -/
theorem chat_never_propagates_llm_failure_witness :
    chat failingGraph "hello"
      = ChatResp.ok200 ("Заглушка (ошибка LLM: " ++ "missing API key" ++ ")") "hello"
    ∧ chat none "   " = ChatResp.err400 "Empty message" := by
  have h1 := chat_never_propagates_llm_failure failingGraph "hello"
  have h2 := chat_never_propagates_llm_failure none "   "
  constructor
  · have hps : pyStrip "hello" = "hello" := by decide
    have := (h1.2 (by decide)).2 (fun _ => Except.error "missing API key")
      "missing API key" rfl (by rfl)
    rw [hps] at this
    exact this
  · exact h2.1 (by decide)

/-- Claim C8: `db_discover` probes every (host, port) pair of the
Cartesian product; the probe never raises (a socket exception is
recorded as not open); the open list follows host-major, port-minor
enumeration order (it equals the order-preserving filter of the
canonical product list); and `suggestedUrls` is exactly one
placeholder-credential URL per open endpoint, in the same order. -/
theorem db_discover_probe_report (envUrl : Option String)
    (probe : String → Nat → Except String Int) :
    (db_discover envUrl probe).open_endpoints
      = (discoverHosts.flatMap fun h => discoverPorts.map fun p => (h, p)).filter
          (fun pr => is_port_open probe pr.1 pr.2)
    ∧ (∀ h p, (h, p) ∈ (db_discover envUrl probe).open_endpoints
        ↔ h ∈ discoverHosts ∧ p ∈ discoverPorts ∧ is_port_open probe h p = true)
    ∧ (db_discover envUrl probe).suggestedUrls
        = (db_discover envUrl probe).open_endpoints.map suggestionUrl
    ∧ (∀ h p e, probe h p = Except.error e → is_port_open probe h p = false) := by
  have hshape : (db_discover envUrl probe).open_endpoints
      = (discoverHosts.flatMap fun h => discoverPorts.map fun p => (h, p)).filter
          (fun pr => is_port_open probe pr.1 pr.2) := by
    show (discoverHosts.flatMap fun host => discoverPorts.flatMap fun port =>
        if is_port_open probe host port then [(host, port)] else []) = _
    rw [List.filter_flatMap]
    refine congrArg _ (funext fun host => ?_)
    exact flatMap_if_singleton discoverPorts (fun p => (host, p))
      (fun pr => is_port_open probe pr.1 pr.2)
  refine ⟨hshape, ?_, rfl, ?_⟩
  · intro h p
    rw [hshape]
    simp only [List.mem_filter, List.mem_flatMap, List.mem_map, Prod.mk.injEq]
    constructor
    · rintro ⟨⟨h0, hh0, p0, hp0, he1, he2⟩, hopen⟩
      subst he1; subst he2
      exact ⟨hh0, hp0, hopen⟩
    · rintro ⟨hh, hp, hopen⟩
      exact ⟨⟨h, hh, p, hp, rfl, rfl⟩, hopen⟩
  · intro h p e hpe
    simp [is_port_open, hpe]

/-- Witness for C8: with one reachable endpoint the report lists it, and
a probe that raises is reported as not open. -/
theorem db_discover_probe_report_witness :
    ("127.0.0.1", 5433) ∈ (db_discover none demoProbe).open_endpoints
    ∧ is_port_open demoProbe "localhost" 5432 = false := by
  have h := db_discover_probe_report none demoProbe
  constructor
  · exact (h.2.1 "127.0.0.1" 5433).mpr ⟨by decide, by decide, by decide⟩
  · exact h.2.2.2 "localhost" 5432 "timeout" rfl

/-- Counterexample to claim C9 as stated: `load_config_from_env` begins
with `load_dotenv(override=False)`, which adds to the process
environment any `.env` entry whose variable is not already set — here an
empty environment gains the entry from the `.env` file, so the process
environment is not identical before and after the call. -/
theorem load_config_mutates_env_cex :
    (load_config_from_env [] [("SOME_VAR", "1")]).1 ≠ [] := by decide

/-- Claim C9 (amended): the only environment effect of
`load_config_from_env` is `load_dotenv(override=False)`, which never
changes an already-set variable (and changes nothing when the `.env`
file is empty); and when the six `DB_*` variables are absent after that
step, the loader returns the documented defaults
(host=localhost, port=5432, dbname=postgres, user=postgres,
password=postgres, sslmode unset). -/
theorem load_config_env_effects (env file : EnvMap) :
    (∀ k, (getenv env k).isSome → getenv (load_config_from_env env file).1 k = getenv env k)
    ∧ (file = [] → (load_config_from_env env file).1 = env)
    ∧ (getenv (load_dotenv_no_override env file) "DB_HOST" = none →
       getenv (load_dotenv_no_override env file) "DB_PORT" = none →
       getenv (load_dotenv_no_override env file) "DB_NAME" = none →
       getenv (load_dotenv_no_override env file) "DB_USER" = none →
       getenv (load_dotenv_no_override env file) "DB_PASSWORD" = none →
       getenv (load_dotenv_no_override env file) "DB_SSLMODE" = none →
       (load_config_from_env env file).2
         = Except.ok ⟨"localhost", 5432, "postgres", "postgres", "postgres", none⟩) := by
  refine ⟨?_, ?_, ?_⟩
  · intro k hk
    rw [load_config_fst]
    exact dotenv_preserves file env k hk
  · intro hf; subst hf
    rw [load_config_fst]; rfl
  · intro h1 h2 h3 h4 h5 h6
    rw [getenv] at h1 h2 h3 h4 h5 h6
    rw [load_config_from_env]
    simp only [getenvD, getenv, h1, h2, h3, h4, h5, h6, Option.getD_none]
    rfl

/-- Witness for C9 (amended): an unrelated preexisting variable is
untouched, and an empty environment with no `.env` entries yields the
documented defaults. -/
theorem load_config_env_effects_witness :
    (load_config_from_env [("PATH", "/usr/bin")] []).1 = [("PATH", "/usr/bin")]
    ∧ (load_config_from_env [] []).2
        = Except.ok ⟨"localhost", 5432, "postgres", "postgres", "postgres", none⟩ := by
  have h1 := load_config_env_effects [("PATH", "/usr/bin")] []
  have h2 := load_config_env_effects [] []
  exact ⟨h1.2.1 rfl, h2.2.2 rfl rfl rfl rfl rfl rfl⟩

/-- Claim C10: `run_query` with a limit that is `None` or not strictly
positive executes the stripped original statement unwrapped — the limit
is silently ignored, never rejected — whereas `fetch_head` rejects every
`limit <= 0` with a `ValueError`. -/
theorem run_query_nonpositive_limit_ignored {ρ : Type} (e : Engine ρ)
    (q : String) (lim : Option Int) :
    ((lim = none ∨ ∃ v, lim = some v ∧ v ≤ 0) →
      preparedText q lim = (⟨normalizedQueryChars q⟩ : String)
      ∧ run_query e q lim = e.run (⟨normalizedQueryChars q⟩ : String))
    ∧ (∀ (table : String) (schema : Option String) (v : Int), v ≤ 0 →
        build_preview_query table schema v = Except.error "limit must be positive") := by
  constructor
  · intro h
    have hp : preparedText q lim = (⟨normalizedQueryChars q⟩ : String) := by
      rcases h with h | ⟨v, hv, hvle⟩
      · subst h; rfl
      · subst hv
        rw [preparedText]
        rw [if_neg (by omega : ¬ 0 < v)]
    exact ⟨hp, by rw [run_query, hp]⟩
  · intro table schema v hv
    rw [build_preview_query, if_pos hv]

/-- Witness for C10: limit 0 runs the statement unwrapped (all three
rows come back from the toy engine), while `fetch_head` rejects it. -/
theorem run_query_nonpositive_limit_ignored_witness :
    run_query toyEngine "select 1;" (some 0) = Except.ok (["a"], [1, 2, 3])
    ∧ build_preview_query "t" none 0 = Except.error "limit must be positive" := by
  have h := run_query_nonpositive_limit_ignored toyEngine "select 1;" (some 0)
  refine ⟨?_, h.2 "t" none 0 (by decide)⟩
  have h2 := (h.1 (Or.inr ⟨0, rfl, by decide⟩)).2
  rw [h2]
  decide

/-- Two scanned blocks that each contribute no top-level semicolon and
leave the scanner outside quotes compose to the same. -/
theorem scan_zero_append {xs ys : List Char}
    (hx0 : tlSemiCount xs false = 0) (hxq : quoteState xs false = false)
    (hy0 : tlSemiCount ys false = 0) (hyq : quoteState ys false = false) :
    tlSemiCount (xs ++ ys) false = 0 ∧ quoteState (xs ++ ys) false = false := by
  rw [tlSemiCount_append, quoteState_append, hxq, hx0, hy0, hyq]
  exact ⟨rfl, rfl⟩

/-- Claim C2: `fetch_head` embeds schema and table as quoted/escaped SQL
identifiers (the escaping round-trips, so any payload — double quotes,
reserved words, `public"; drop table x; --` — stays one literal
identifier) and the limit as a decimal integer literal; the built
statement has exactly one semicolon outside quoted identifiers and it is
the final character, so no additional statement can be introduced; and
`limit <= 0` fails with the `ValueError` instead of building anything. -/
theorem fetch_head_identifier_safety (table : String) (schema : Option String) (limit : Int) :
    (limit ≤ 0 → build_preview_query table schema limit = Except.error "limit must be positive")
    ∧ (0 < limit →
        build_preview_query table schema limit
          = Except.ok (previewStmt (schemaOrPublic schema) table limit)
        ∧ topLevelSemis (previewStmt (schemaOrPublic schema) table limit) = 1
        ∧ (previewStmt (schemaOrPublic schema) table limit).data.getLast? = some ';'
        ∧ unescapeQuotes (escapeQuotes (schemaOrPublic schema).data) = (schemaOrPublic schema).data
        ∧ unescapeQuotes (escapeQuotes table.data) = table.data
        ∧ ∀ c ∈ (Int.repr limit).data, c.isDigit = true) := by
  constructor
  · intro h; rw [build_preview_query, if_pos h]
  · intro h
    have hnot : ¬ limit ≤ 0 := by omega
    have hdigchars := (intRepr_pos_digit_chars limit h).2
    have hFplain : ∀ c ∈ (Int.repr limit).data, c ≠ '"' ∧ c ≠ ';' := by
      intro c hc
      obtain ⟨m, hm, rfl⟩ := hdigchars c hc
      have hf := digitChar_facts m hm
      exact ⟨hf.2.2.2.1, hf.2.2.1⟩
    have hdata : (previewStmt (schemaOrPublic schema) table limit).data
        = ((((("select * from " : String).data ++ (quoteIdent (schemaOrPublic schema)).data)
            ++ ("." : String).data) ++ (quoteIdent table).data)
            ++ (" limit " : String).data) ++ (Int.repr limit).data ++ [';'] := by
      show ((("select * from " ++ quoteIdent (schemaOrPublic schema) ++ "." ++ quoteIdent table
          ++ " limit ") ++ Int.repr limit) ++ ";").data = _
      rw [strData_append, strData_append, strData_append, strData_append,
        strData_append, strData_append]
    have hA : tlSemiCount ("select * from " : String).data false = 0
        ∧ quoteState ("select * from " : String).data false = false := by decide
    have hC : tlSemiCount ("." : String).data false = 0
        ∧ quoteState ("." : String).data false = false := by decide
    have hE : tlSemiCount (" limit " : String).data false = 0
        ∧ quoteState (" limit " : String).data false = false := by decide
    have hF : tlSemiCount (Int.repr limit).data false = 0 :=
      tlSemiCount_of_plain _ false hFplain
    have hFq : quoteState (Int.repr limit).data false = false :=
      quoteState_of_plain _ false (fun c hc => (hFplain c hc).1)
    have h1 := scan_zero_append hA.1 hA.2
      (quoteIdent_tlSemiCount (schemaOrPublic schema)) (quoteIdent_quoteState (schemaOrPublic schema))
    have h2 := scan_zero_append h1.1 h1.2 hC.1 hC.2
    have h3 := scan_zero_append h2.1 h2.2
      (quoteIdent_tlSemiCount table) (quoteIdent_quoteState table)
    have h4 := scan_zero_append h3.1 h3.2 hE.1 hE.2
    have h5 := scan_zero_append h4.1 h4.2 hF hFq
    refine ⟨by rw [build_preview_query, if_neg hnot], ?_, ?_, unescape_escape _,
      unescape_escape _, ?_⟩
    · rw [topLevelSemis, hdata, tlSemiCount_append, h5.1, h5.2]
      rfl
    · rw [hdata]
      exact List.getLast?_concat _
    · intro c hc
      obtain ⟨m, hm, rfl⟩ := hdigchars c hc
      exact (digitChar_facts m hm).2.2.2.2

/-- Witness for C2: the guard rejects `limit = 0`, and at `limit = 10`
with the injection payload as schema the built statement still has
exactly one top-level semicolon, in final position. -/
theorem fetch_head_identifier_safety_witness :
    build_preview_query "x" (some "public\x22; drop table x; --") 0
      = Except.error "limit must be positive"
    ∧ topLevelSemis (previewStmt (schemaOrPublic (some "public\x22; drop table x; --")) "x" 10) = 1
    ∧ (previewStmt (schemaOrPublic (some "public\x22; drop table x; --")) "x" 10).data.getLast?
      = some ';' :=
  ⟨(fetch_head_identifier_safety "x" (some "public\x22; drop table x; --") 0).1 (by decide),
   ((fetch_head_identifier_safety "x" (some "public\x22; drop table x; --") 10).2 (by decide)).2.1,
   ((fetch_head_identifier_safety "x" (some "public\x22; drop table x; --") 10).2 (by decide)).2.2.1⟩

/-- Claim C3: `run_query` with a positive limit strips the trailing
terminator (the normalized text never ends in `;`), wraps the text as a
subquery with an appended limit clause by pure concatenation, returns
exactly `min(R, n)` rows when the engine honours LIMIT on the wrapped
statement, and wrapping is idempotent: feeding the wrapped statement
back through `run_query` with the same limit yields the same rows. -/
theorem run_query_limit_wrapping {ρ : Type} (e : Engine ρ) (q : String) (n : Int)
    (cols : List String) (rows : List ρ)
    (hn : 0 < n)
    (hq : e.run (⟨normalizedQueryChars q⟩ : String) = Except.ok (cols, rows))
    (hwrap : e.run (wrapLimit (⟨normalizedQueryChars q⟩ : String) n)
        = Except.ok (cols, rows.take n.toNat))
    (hwrap2 : e.run (wrapLimit (wrapLimit (⟨normalizedQueryChars q⟩ : String) n) n)
        = Except.ok (cols, (rows.take n.toNat).take n.toNat)) :
    preparedText q (some n) = wrapLimit (⟨normalizedQueryChars q⟩ : String) n
    ∧ (∀ c, (normalizedQueryChars q).reverse.head? = some c → (c == ';') = false)
    ∧ run_query e q (some n) = Except.ok (cols, rows.take n.toNat)
    ∧ (rows.take n.toNat).length = min rows.length n.toNat
    ∧ run_query e (wrapLimit (⟨normalizedQueryChars q⟩ : String) n) (some n)
        = Except.ok (cols, rows.take n.toNat) := by
  have hprep : preparedText q (some n) = wrapLimit (⟨normalizedQueryChars q⟩ : String) n := by
    rw [preparedText, if_pos hn]
  refine ⟨hprep, ?_, ?_, ?_, ?_⟩
  · intro c hc
    have hd := List.head?_dropWhile_not (fun x => x == ';') (stripChars q.data).reverse
    rw [normalizedQueryChars, rstripSemisChars, List.reverse_reverse] at hc
    rw [hc] at hd
    exact hd
  · rw [run_query, hprep, hwrap]
  · rw [List.length_take]
    exact Nat.min_comm _ _
  · rw [run_query]
    have hnorm : preparedText (wrapLimit (⟨normalizedQueryChars q⟩ : String) n) (some n)
        = wrapLimit (wrapLimit (⟨normalizedQueryChars q⟩ : String) n) n := by
      rw [preparedText, if_pos hn, normalized_wrap _ n hn, strMk_data]
    rw [hnorm, hwrap2, List.take_take, Nat.min_self]

/-- Witness for C3 on the toy engine: `select 1;` under limit 2 returns
two of the three rows, and re-wrapping the wrapped statement with the
same limit returns the same rows. -/
theorem run_query_limit_wrapping_witness :
    run_query toyEngine "select 1;" (some 2) = Except.ok (["a"], [1, 2])
    ∧ run_query toyEngine (wrapLimit (⟨normalizedQueryChars "select 1;"⟩ : String) 2) (some 2)
        = Except.ok (["a"], [1, 2]) := by
  have h := run_query_limit_wrapping toyEngine "select 1;" 2 ["a"] [1, 2, 3]
    (by decide) (by decide) (by decide) (by decide)
  have ht : ([1, 2, 3] : List Nat).take ((2 : Int)).toNat = [1, 2] := by decide
  constructor
  · rw [h.2.2.1, ht]
  · rw [h.2.2.2.2, ht]
